import Mathlib

/-!
A shallow embedding of `qipcpointer.h` (QIpcPointer): a Qt smart pointer
that placement-constructs a control block (`Ptr`: ownership flag, `quint64`
reference count, payload) at offset 0 of a named OS shared-memory segment,
and implements the create / attach / clone / drop-ownership / destructor
protocol on it, plus the RAII lock guard `QIpcPointerLocker`.

Modelling conventions:
* `quint64` arithmetic is `Nat` arithmetic modulo `2 ^ 64` (`quint64Mod`).
* The OS shared-memory segment for one key is `Option (Seg α)`; `none`
  means the named segment does not exist.
* A handle's `Ptr *data` member is modelled by the Boolean field `hasData`
  (pointer non-null); the pointee itself lives in the segment state.
* Payload destruction (`data->~Ptr()`) is recorded by the model flag
  `alive` on the control block; the destructor call sets it to `false`.
* Keys are opaque and modelled as `Nat`; OS outcomes of the external
  `QSharedMemory` collaborator (creation success/failure, granted size,
  lock results) are injected as explicit parameters where the source
  delegates to the OS.
* Lock/unlock effects of the region mutex are modelled only where a claim
  is about them (the `QIpcPointerLocker` model); the handle operations
  perform their control-block mutation atomically in this model, matching
  the fact that the source brackets them with `lock()` / `unlock()`.
-/

namespace QSharedMemory

/-- Qt's `QSharedMemory::SharedMemoryError` enumeration. -/
inductive SharedMemoryError
  | NoError
  | PermissionDenied
  | InvalidSize
  | KeyError
  | AlreadyExists
  | NotFound
  | LockError
  | OutOfResources
  | UnknownError
  deriving DecidableEq

end QSharedMemory

namespace QIpcPointer

open QSharedMemory

/-- The `quint64` modulus: counter arithmetic is performed mod `2 ^ 64`. -/
def quint64Mod : Nat := 2 ^ 64

/-- `QIpcPointer<T>::Ptr` — the control block placed at offset 0 of the
segment: `bool owned = true; quint64 count = 1; T data;`.  The extra field
`alive` is a model artifact recording whether the block has been destroyed
by `data->~Ptr()` (it starts `true` at placement construction). -/
structure Ptr (α : Type) where
  owned : Bool
  count : Nat
  data : α
  alive : Bool
  deriving DecidableEq

/-- An existing OS shared-memory segment: its byte size as reported by
`QSharedMemory::size()`, and its contents interpreted as a control block. -/
structure Seg (α : Type) where
  size : Nat
  blk : Ptr α
  deriving DecidableEq

/-- `QIpcPointer<T>::Data` — the per-handle state: `QSharedMemory sharedMem;
bool isOwner = false; Ptr *data = nullptr; SharedMemoryError errorOverride
= NoError;`.  The `QSharedMemory` member is flattened into the fields
`attached` (`sharedMem.isAttached()`), `memSize` (`sharedMem.size()`, `0`
when not attached), `key` (`sharedMem.key()`) and `osError`
(`sharedMem.error()`); the `data` pointer becomes the Boolean `hasData`. -/
structure Data where
  attached : Bool
  memSize : Nat
  key : Nat
  osError : SharedMemoryError
  isOwner : Bool
  hasData : Bool
  errorOverride : SharedMemoryError
  deriving DecidableEq

/-- A freshly default-constructed handle (`QIpcPointer()` allocates
`new Data{}` with the in-class member initializers). -/
def Data.init : Data :=
  { attached := false
    memSize := 0
    key := 0
    osError := .NoError
    isOwner := false
    hasData := false
    errorOverride := .NoError }

/-- Outcome of the external `QSharedMemory::create(sizeof(Ptr), ReadWrite)`
call: success grants a segment of `allocSize` bytes (the source asserts
`allocSize ≥ sizeof(Ptr)`), failure reports an OS error. -/
inductive OsCreate
  | osOk (allocSize : Nat)
  | osFail (e : QSharedMemory.SharedMemoryError)

/-- `QIpcPointer<T>::create(key, args...)`.  On OS failure the handle is
returned as-is (invalid, not attached, `sharedMem.error()` set).  On
success the handle becomes the owner and the control block
`Ptr{owned = true, count = 1, data = T(args...)}` is placement-constructed
into the mapped memory.  Returns the handle and the segment it created. -/
def create (key : Nat) (v : α) (os : OsCreate) : Data × Option (Seg α) :=
  match os with
  | .osFail e => ({ Data.init with key := key, osError := e }, none)
  | .osOk sz =>
      let d : Data :=
        { Data.init with
          key := key
          attached := true
          memSize := sz
          isOwner := true
          hasData := true }
      let s : Seg α :=
        { size := sz, blk := { owned := true, count := 1, data := v, alive := true } }
      (d, some s)

/-- `QIpcPointer<T>::attach(key)`.  If no segment exists the OS attach
fails (modelled as `NotFound`) and the handle stays invalid.  If the
attached segment is smaller than `sizeof(Ptr)` (`ptrSize`), the handle
stays invalid with `errorOverride = InvalidSize` (note it remains
attached: the OS attach itself succeeded).  Otherwise, under the region
lock, the control-block pointer is taken and `data->count++` performed. -/
def attach (ptrSize key : Nat) (seg : Option (Seg α)) : Data × Option (Seg α) :=
  match seg with
  | none => ({ Data.init with key := key, osError := .NotFound }, none)
  | some s =>
      if s.size < ptrSize then
        let d : Data :=
          { Data.init with
            key := key
            attached := true
            memSize := s.size
            errorOverride := .InvalidSize }
        (d, some s)
      else
        let d : Data :=
          { Data.init with
            key := key
            attached := true
            memSize := s.size
            hasData := true }
        (d, some { s with blk := { s.blk with count := (s.blk.count + 1) % quint64Mod } })

/-- `QIpcPointer<T>::clone(other)`: `if(other) return attach(other.key());
else return {};`. -/
def clone (ptrSize : Nat) (other : Data) (seg : Option (Seg α)) : Data × Option (Seg α) :=
  if other.hasData then attach ptrSize other.key seg
  else (Data.init, seg)

/-- `QIpcPointer<T>::isValid()` — `d->data` non-null. -/
def isValid (d : Data) : Bool := d.hasData

/-- `QIpcPointer<T>::isNull()` — `!d->data`. -/
def isNull (d : Data) : Bool := !d.hasData

/-- `QIpcPointer<T>::error()`: the handle-local `errorOverride` takes
precedence over `sharedMem.error()` when it is not `NoError`. -/
def error (d : Data) : SharedMemoryError :=
  if d.errorOverride ≠ .NoError then d.errorOverride else d.osError

/-- What `QIpcPointer<T>::errorString()` produces.  `sizeMessage observed
required` stands for the formatted message "Was able to attach to shared
memory, but the attached memory only provides %L1 bytes, whilst for the
given datatype (+ metadata) %L2 bytes are required" carrying
`sharedMem.size()` and `sizeof(Ptr)`.  `osErrorEnum e` records that the
source's else branch is `return d->sharedMem.error();` — it yields the
`SharedMemoryError` enumerator itself, not a human-readable description
string (`d->sharedMem.errorString()`), and as written does not even
type-check against the declared `QString` return type. -/
inductive ErrorStringResult
  | sizeMessage (observed required : Nat)
  | osErrorEnum (e : QSharedMemory.SharedMemoryError)
  deriving DecidableEq

/-- `QIpcPointer<T>::errorString()`, translated branch by branch from the
source (see `ErrorStringResult` for the else branch). -/
def errorString (ptrSize : Nat) (d : Data) : ErrorStringResult :=
  if d.errorOverride ≠ .NoError then .sizeMessage d.memSize ptrSize
  else .osErrorEnum d.osError

/-- `QIpcPointer<T>::data()`: `d->data ? &(d->data->data) : nullptr`.
`b` is the control block the handle's pointer refers to when non-null. -/
def data (d : Data) (b : Ptr α) : Option α :=
  if d.hasData then some b.data else none

/-- `QIpcPointer<T>::get()`: `d->data ? &(d->data->data) : nullptr`. -/
def get (d : Data) (b : Ptr α) : Option α :=
  if d.hasData then some b.data else none

/-- `QIpcPointer<T>::operator*()`: dereferences `d->data` unconditionally,
so the model requires a proof that the handle is valid. -/
def opStar (d : Data) (b : Ptr α) (_h : isValid d = true) : α := b.data

/-- `QIpcPointer<T>::operator->()`: `&(d->data->data)`, requiring a valid
handle just like `operator*`. -/
def opArrow (d : Data) (b : Ptr α) (_h : isValid d = true) : α := b.data

/-- `QIpcPointer<T>::dropOwnership()`: `if(d->isOwner && d->data) { lock();
d->data->owned = false; d->isOwner = false; unlock(); }`. -/
def dropOwnership (d : Data) (b : Ptr α) : Data × Ptr α :=
  if d.isOwner && d.hasData then
    ({ d with isOwner := false }, { b with owned := false })
  else (d, b)

/-- `QIpcPointer<T>::Data::~Data()`.  `b` is the control block the
handle's pointer refers to when `hasData` (the branch never reads it
otherwise, matching the short-circuit `data && ...` guard).  Returns the
control block after the destructor ran, and whether `sharedMem.detach()`
was called (it is, exactly when the region was attached).  Note the
short-circuit in `if(isOwner || --(data->count) == 0)`: an owner destroys
without decrementing the count. -/
def Data.dtor (d : Data) (b : Ptr α) : Ptr α × Bool :=
  let b' :=
    if d.hasData && (d.isOwner || !b.owned) then
      if d.isOwner then { b with alive := false }
      else
        let c := (b.count + (quint64Mod - 1)) % quint64Mod
        if c = 0 then { b with count := c, alive := false }
        else { b with count := c }
    else b
  (b', d.attached)

/-- `n` successive `attach` calls (each by a fresh handle) threaded
through the segment state. -/
def attachN (ptrSize key : Nat) : Nat → Option (Seg α) → Option (Seg α)
  | 0, seg => seg
  | n + 1, seg => attachN ptrSize key n (attach ptrSize key seg).snd

end QIpcPointer

/-- `QIpcPointerLocker` state: `_shareMem` non-null (it is null only for
moved-from lockers) and the `_locked` flag. -/
structure QIpcPointerLocker where
  hasMem : Bool
  locked : Bool
  deriving DecidableEq

/-- The constructor: `_shareMem{pointer.sharedMemory()}` (non-null) and
`_locked = _shareMem->lock();` with the OS lock result injected. -/
def QIpcPointerLocker.fromPointer (lockResult : Bool) : QIpcPointerLocker :=
  { hasMem := true, locked := lockResult }

/-- `~QIpcPointerLocker()`: `if(_shareMem) _shareMem->unlock();` — returns
whether an OS unlock call is issued.  Note the destructor tests only
`_shareMem`, not `_locked`. -/
def QIpcPointerLocker.dtorUnlocks (l : QIpcPointerLocker) : Bool := l.hasMem

/-- `QIpcPointerLocker::unlock()`: `if(_shareMem) { _locked = false;
return _shareMem->unlock(); } else return false;`.  The OS unlock call's
result is injected as `osUnlockResult`; the pair is (new state, returned
Bool). -/
def QIpcPointerLocker.unlock (l : QIpcPointerLocker) (osUnlockResult : Bool) :
    QIpcPointerLocker × Bool :=
  if l.hasMem then ({ l with locked := false }, osUnlockResult) else (l, false)

/-- `QIpcPointerLocker::relock()`: `if(_shareMem && !_locked &&
_shareMem->lock()) { _locked = true; return true; } else return false;`. -/
def QIpcPointerLocker.relock (l : QIpcPointerLocker) (osLockResult : Bool) :
    QIpcPointerLocker × Bool :=
  if l.hasMem && !l.locked then
    if osLockResult then ({ l with locked := true }, true) else (l, false)
  else (l, false)

namespace QIpcPointer

open QSharedMemory

/-- Claim C1: on teardown of a handle with a non-null control-block
pointer that is the owner or sees `owned = false`: an owner destroys the
payload unconditionally without decrementing the count; a non-owner
decrements the count and destroys the payload exactly when the decremented
count reaches zero; and the OS mapping is detached exactly when the region
was attached. -/
theorem C1_dtor_protocol (d : Data) (b : Ptr α)
    (hd : d.hasData = true) (hg : d.isOwner = true ∨ b.owned = false)
    (ha : b.alive = true) :
    (d.isOwner = true → Data.dtor d b = ({ b with alive := false }, d.attached))
    ∧ (d.isOwner = false →
        (Data.dtor d b).fst.count = (b.count + (quint64Mod - 1)) % quint64Mod
        ∧ ((Data.dtor d b).fst.alive = false ↔
            (b.count + (quint64Mod - 1)) % quint64Mod = 0))
    ∧ (Data.dtor d b).snd = d.attached := by
  refine ⟨?_, ?_, rfl⟩
  · intro ho
    simp [Data.dtor, hd, ho]
  · intro ho
    have hw : b.owned = false := by
      rcases hg with h | h
      · rw [ho] at h; exact absurd h (by simp)
      · exact h
    constructor
    · simp [Data.dtor, hd, ho, hw]
      split_ifs <;> simp
    · simp [Data.dtor, hd, ho, hw, ha]
      split_ifs with h0 <;> simp [h0]

/-- Claim C1 witness: a cooperative non-owner teardown at refcount 1
destroys the payload and reports the detach. -/
theorem C1_dtor_protocol_witness :
    (Data.dtor { Data.init with attached := true, hasData := true }
        (⟨false, 1, (0 : Nat), true⟩ : Ptr Nat)).fst.alive = false := by
  have h := C1_dtor_protocol { Data.init with attached := true, hasData := true }
      (⟨false, 1, (0 : Nat), true⟩ : Ptr Nat) rfl (Or.inr rfl) rfl
  exact (h.2.1 rfl).2.mpr (by decide)

/-- Claim C2: `dropOwnership` mutates state exactly when the handle is the
owner and the control-block pointer is non-null, in which case it clears
the shared `owned` flag and the local `isOwner` flag; any other call — and
any second call — is a no-op on both the control block and the handle. -/
theorem C2_dropOwnership_protocol (d : Data) (b : Ptr α) :
    (d.isOwner = true → d.hasData = true →
        dropOwnership d b = ({ d with isOwner := false }, { b with owned := false }))
    ∧ (d.isOwner = false ∨ d.hasData = false → dropOwnership d b = (d, b))
    ∧ dropOwnership (dropOwnership d b).fst (dropOwnership d b).snd = dropOwnership d b := by
  refine ⟨fun h1 h2 => by simp [dropOwnership, h1, h2], fun h => ?_, ?_⟩
  · rcases h with h | h <;> simp [dropOwnership, h]
  · by_cases h1 : d.isOwner <;> by_cases h2 : d.hasData <;>
      simp [dropOwnership, h1, h2]

/-- Claim C2 witness: an owning, valid handle drops ownership: the shared
flag and local flag are both cleared. -/
theorem C2_dropOwnership_witness :
    dropOwnership { Data.init with isOwner := true, hasData := true }
        (⟨true, 1, (0 : Nat), true⟩ : Ptr Nat)
      = ({ Data.init with hasData := true }, ⟨false, 1, 0, true⟩) := by
  have h := C2_dropOwnership_protocol { Data.init with isOwner := true, hasData := true }
      (⟨true, 1, (0 : Nat), true⟩ : Ptr Nat)
  exact (h.1 rfl rfl).trans (by decide)

/-- Claim C4: tearing down a plain non-owner handle (`isOwner = false`)
while the shared `owned` flag is still `true` leaves the control block
entirely unchanged; the mapping is detached exactly when attached. -/
theorem C4_plain_nonowner_frame (d : Data) (b : Ptr α)
    (ho : d.isOwner = false) (hw : b.owned = true) :
    Data.dtor d b = (b, d.attached) := by
  simp [Data.dtor, ho, hw]

/-- Claim C4 witness: a concrete attached non-owner teardown under
`owned = true` returns the block untouched and detaches. -/
theorem C4_plain_nonowner_frame_witness :
    Data.dtor { Data.init with attached := true, hasData := true }
        (⟨true, 7, (3 : Nat), true⟩ : Ptr Nat)
      = (⟨true, 7, 3, true⟩, true) :=
  C4_plain_nonowner_frame _ _ rfl rfl

/-- Claim C5: attaching to a segment smaller than `sizeof(Ptr)` yields an
invalid handle with the `InvalidSize` override, leaves the segment (and so
the refcount) untouched, and `error()` reports `InvalidSize`; the override
takes precedence over whatever the OS error channel holds. -/
theorem C5_attach_invalid_size (ptrSize key : Nat) (s : Seg α) (e : SharedMemoryError)
    (hs : s.size < ptrSize) :
    isValid (attach ptrSize key (some s)).fst = false
    ∧ (attach ptrSize key (some s)).fst.errorOverride = SharedMemoryError.InvalidSize
    ∧ (attach ptrSize key (some s)).snd = some s
    ∧ error (attach ptrSize key (some s)).fst = SharedMemoryError.InvalidSize
    ∧ error { (attach ptrSize key (some s)).fst with osError := e }
        = SharedMemoryError.InvalidSize := by
  simp [attach, hs, isValid, error, Data.init]

/-- Claim C5 witness: a 4-byte segment against an 8-byte control block. -/
theorem C5_attach_invalid_size_witness :
    isValid (attach 8 2 (some (⟨4, ⟨true, 1, (0 : Nat), true⟩⟩ : Seg Nat))).fst = false
    ∧ (attach 8 2 (some (⟨4, ⟨true, 1, (0 : Nat), true⟩⟩ : Seg Nat))).snd
        = some ⟨4, ⟨true, 1, 0, true⟩⟩
    ∧ error (attach 8 2 (some (⟨4, ⟨true, 1, (0 : Nat), true⟩⟩ : Seg Nat))).fst
        = SharedMemoryError.InvalidSize := by
  have h := C5_attach_invalid_size 8 2 (⟨4, ⟨true, 1, (0 : Nat), true⟩⟩ : Seg Nat)
      SharedMemoryError.NotFound (by decide)
  exact ⟨h.1, h.2.2.1, h.2.2.2.1⟩

/-- Claim C6: `clone` on a valid handle is exactly `attach(other.key())` —
a structurally independent attachment which, when the segment is big
enough, yields a fresh valid non-owner handle and one more refcount; on an
invalid handle it returns an invalid default handle and leaves the
segment alone. -/
theorem C6_clone_protocol (ptrSize : Nat) (other : Data) (seg : Option (Seg α)) (s : Seg α) :
    (other.hasData = false →
        clone ptrSize other seg = (Data.init, seg) ∧ isValid Data.init = false)
    ∧ (other.hasData = true → clone ptrSize other seg = attach ptrSize other.key seg)
    ∧ (other.hasData = true → seg = some s → ptrSize ≤ s.size →
        isValid (clone ptrSize other seg).fst = true
        ∧ (clone ptrSize other seg).fst.isOwner = false
        ∧ (clone ptrSize other seg).snd
            = some { s with blk := { s.blk with count := (s.blk.count + 1) % quint64Mod } }) := by
  refine ⟨fun h => ⟨by simp [clone, h], rfl⟩, fun h => by simp [clone, h], fun h hseg hsz => ?_⟩
  subst hseg
  have hlt : ¬ s.size < ptrSize := not_lt.mpr hsz
  simp [clone, attach, h, hlt, isValid, Data.init]

/-- Claim C6 witness: cloning a valid handle with key 7 over a segment at
refcount 2 yields a valid handle and refcount 3. -/
theorem C6_clone_protocol_witness :
    isValid (clone 8 { Data.init with hasData := true, key := 7 }
        (some (⟨8, ⟨true, 2, (0 : Nat), true⟩⟩ : Seg Nat))).fst = true
    ∧ (clone 8 { Data.init with hasData := true, key := 7 }
        (some (⟨8, ⟨true, 2, (0 : Nat), true⟩⟩ : Seg Nat))).snd
        = some ⟨8, ⟨true, 3, 0, true⟩⟩ := by
  have h := C6_clone_protocol 8 { Data.init with hasData := true, key := 7 }
      (some (⟨8, ⟨true, 2, (0 : Nat), true⟩⟩ : Seg Nat)) ⟨8, ⟨true, 2, 0, true⟩⟩
  have h3 := h.2.2 rfl rfl (by decide)
  exact ⟨h3.1, h3.2.2.trans (by decide)⟩

/-- Claim C7: `create` on OS failure returns an invalid handle
(`isOwner = false`, null control-block pointer, no override) whose failure
shows up in `error()`; on success it returns a valid owning handle and
placement-constructs `Ptr{owned = true, count = 1, data = v}` in the
mapped memory. -/
theorem C7_create_protocol (key : Nat) (v : α) (e : SharedMemoryError) (sz : Nat) :
    (create key v (.osFail e) = ({ Data.init with key := key, osError := e }, none)
      ∧ isValid (create key v (.osFail e) : Data × Option (Seg α)).fst = false
      ∧ (create key v (.osFail e) : Data × Option (Seg α)).fst.isOwner = false
      ∧ (create key v (.osFail e) : Data × Option (Seg α)).fst.errorOverride
          = SharedMemoryError.NoError
      ∧ error (create key v (.osFail e) : Data × Option (Seg α)).fst = e)
    ∧ ((create key v (.osOk sz)).fst.isOwner = true
      ∧ isValid (create key v (.osOk sz)).fst = true
      ∧ (create key v (.osOk sz)).snd
          = some { size := sz, blk := { owned := true, count := 1, data := v, alive := true } }) := by
  refine ⟨⟨rfl, rfl, rfl, rfl, ?_⟩, rfl, rfl, rfl⟩
  simp [create, error, Data.init]

/-- Claim C9 (code evaluation at the failing input): for a handle with no
override and an OS error, the source's `errorString()` returns the raw
`SharedMemoryError` enumerator (`return d->sharedMem.error();`), not a
human-readable description string. -/
theorem C9_errorString_enum_eval :
    errorString 24 { Data.init with osError := SharedMemoryError.NotFound }
      = ErrorStringResult.osErrorEnum SharedMemoryError.NotFound := by
  decide

/-- Claim C10: `data()` and `get()` agree on every handle, return `none`
on an invalid handle, and on a valid handle return the payload of the
control block — the same value `operator*` and `operator->` (which demand
a validity proof) produce. -/
theorem C10_data_get_nullsafe (d : Data) (b : Ptr α) :
    data d b = get d b
    ∧ (isNull d = true → data d b = none ∧ get d b = none)
    ∧ (∀ h : isValid d = true,
        data d b = some b.data
        ∧ data d b = some (opStar d b h)
        ∧ get d b = some (opArrow d b h)) := by
  refine ⟨rfl, fun hn => ?_, fun h => ?_⟩
  · have hf : d.hasData = false := by simpa [isNull] using hn
    simp [data, get, hf]
  · have ht : d.hasData = true := by simpa [isValid] using h
    simp [data, get, opStar, opArrow, ht]

/-- Claim C10 witness: on a concrete valid handle both accessors return
the payload. -/
theorem C10_data_get_nullsafe_witness :
    data { Data.init with hasData := true } (⟨true, 1, (42 : Nat), true⟩ : Ptr Nat) = some 42
    ∧ get { Data.init with hasData := true } (⟨true, 1, (42 : Nat), true⟩ : Ptr Nat) = some 42 := by
  have h := C10_data_get_nullsafe { Data.init with hasData := true }
      (⟨true, 1, (42 : Nat), true⟩ : Ptr Nat)
  exact ⟨(h.2.2 rfl).1, (h.2.2 rfl).2.2⟩

/-- Helper: starting from a segment big enough whose count is in `quint64`
range, `n` successive attaches change exactly the count, adding `n`
(mod `2 ^ 64`). -/
theorem attachN_count (ptrSize key n : Nat) :
    ∀ (sz c : Nat) (o a : Bool) (v : α), ptrSize ≤ sz → c < quint64Mod →
      attachN ptrSize key n (some ⟨sz, ⟨o, c, v, a⟩⟩)
        = some ⟨sz, ⟨o, (c + n) % quint64Mod, v, a⟩⟩ := by
  induction n with
  | zero =>
      intro sz c o a v hsz hc
      simp [attachN, Nat.mod_eq_of_lt hc]
  | succ n ih =>
      intro sz c o a v hsz hc
      have hlt : ¬ sz < ptrSize := not_lt.mpr hsz
      have step : (attach ptrSize key (some (⟨sz, ⟨o, c, v, a⟩⟩ : Seg α))).snd
          = some ⟨sz, ⟨o, (c + 1) % quint64Mod, v, a⟩⟩ := by
        simp [attach, hlt]
      have harith : ((c + 1) % quint64Mod + n) % quint64Mod = (c + (n + 1)) % quint64Mod := by
        rw [Nat.mod_add_mod]
        congr 1
        omega
      calc attachN ptrSize key (n + 1) (some ⟨sz, ⟨o, c, v, a⟩⟩)
          = attachN ptrSize key n (attach ptrSize key (some ⟨sz, ⟨o, c, v, a⟩⟩)).snd := rfl
        _ = attachN ptrSize key n (some ⟨sz, ⟨o, (c + 1) % quint64Mod, v, a⟩⟩) := by rw [step]
        _ = some ⟨sz, ⟨o, ((c + 1) % quint64Mod + n) % quint64Mod, v, a⟩⟩ :=
            ih sz _ o a v hsz (Nat.mod_lt _ (by decide))
        _ = some ⟨sz, ⟨o, (c + (n + 1)) % quint64Mod, v, a⟩⟩ := by rw [harith]

/-- Claim C3: a successful create initializes the count to 1, and `n`
successful attaches to the same key (ownership kept, no teardown in
between) leave the shared refcount at `n + 1`: each attach adds exactly
one. -/
theorem C3_refcount_after_attaches (ptrSize key sz n : Nat) (v : α)
    (hsz : ptrSize ≤ sz) (hn : n + 1 < quint64Mod) :
    attachN ptrSize key n (create key v (.osOk sz)).snd
      = some ⟨sz, ⟨true, n + 1, v, true⟩⟩ := by
  have h := attachN_count ptrSize key n sz 1 true true v hsz (by decide)
  have h2 : (1 + n) % quint64Mod = n + 1 := by
    rw [Nat.add_comm]
    exact Nat.mod_eq_of_lt hn
  calc attachN ptrSize key n (create key v (.osOk sz)).snd
      = attachN ptrSize key n (some ⟨sz, ⟨true, 1, v, true⟩⟩) := rfl
    _ = some ⟨sz, ⟨true, (1 + n) % quint64Mod, v, true⟩⟩ := h
    _ = some ⟨sz, ⟨true, n + 1, v, true⟩⟩ := by rw [h2]

/-- Claim C3 witness: create then 3 attaches over an 8-byte block gives
refcount 4. -/
theorem C3_refcount_after_attaches_witness :
    attachN 8 5 3 (create 5 (0 : Nat) (.osOk 8)).snd = some ⟨8, ⟨true, 4, 0, true⟩⟩ :=
  C3_refcount_after_attaches 8 5 8 3 0 (by decide) (by decide)

end QIpcPointer

/-- Claim C8 counterexample: a locker whose lock was already released by a
successful explicit `unlock()` (so `_locked = false`) still issues an OS
unlock on destruction — the destructor tests only `_shareMem`, never
`_locked`, refuting "releases on destruction only if still held". -/
theorem C8_locker_counterexample :
    ((QIpcPointerLocker.fromPointer true).unlock true).fst.locked = false
    ∧ QIpcPointerLocker.dtorUnlocks ((QIpcPointerLocker.fromPointer true).unlock true).fst
        = true := by
  decide

/-- Claim C8 amended: the destructor issues a release exactly when the
locker's region pointer is non-null, regardless of the `_locked` flag — in
particular it still unlocks after a successful explicit `unlock()`; an
explicit `unlock()` leaves the held flag cleared whenever a region pointer
is present, and a repeated `unlock()` is a no-op on the locker's state. -/
theorem C8_locker_amended (l : QIpcPointerLocker) (r r' : Bool) :
    QIpcPointerLocker.dtorUnlocks l = l.hasMem
    ∧ QIpcPointerLocker.dtorUnlocks (l.unlock r).fst = l.hasMem
    ∧ (l.unlock r).fst.locked = (l.locked && !l.hasMem)
    ∧ ((l.unlock r).fst.unlock r').fst = (l.unlock r).fst := by
  cases l with
  | mk hm lk =>
      cases hm <;> cases lk <;>
        simp [QIpcPointerLocker.unlock, QIpcPointerLocker.dtorUnlocks]
